import Mathlib

/-!
Shallow embedding of the authentication / authorization middleware chain and
the central error-translation pipeline of the MERN blogging backend
(src/server/src: utils/auth, middleware/auth, middleware/errorHandler, app.js,
routes/auth), together with theorems settling the frozen claims about it.

JavaScript runtime values are modelled explicitly: optional object properties
become Option, JS truthiness is modelled by dedicated helper functions, thrown
JS errors become a JsError record carrying exactly the fields the error
handler probes, and JSON response bodies become ordered key/value lists.
-/

namespace MernAuth

/-- A stored user document as persisted by the storage layer (models/User.js
is not part of the sources; its shape is taken from the fields the auth
subsystem reads: _id, username, email, password, role, isActive). -/
structure UserDoc where
  _id : String
  username : String
  email : String
  password : String
  role : String
  isActive : Bool
deriving DecidableEq, Repr

/-- The public view of a user: the record with the secret password field
excluded, as produced by Query.select(-password) and by toPublicJSON. -/
structure PublicUser where
  _id : String
  username : String
  email : String
  role : String
  isActive : Bool
deriving DecidableEq, Repr

/-- Dropping the password field from a stored user document. -/
def toPublic (u : UserDoc) : PublicUser :=
  { _id := u._id, username := u.username, email := u.email, role := u.role,
    isActive := u.isActive }

/-- User.findById: look up a user document by its id. -/
def findById (db : List UserDoc) (id : String) : Option UserDoc :=
  db.find? (fun u => u._id = id)

/-- The claim set embedded in a token by generateToken (src/server/src
auth utility): id, username, email, role. -/
structure JwtPayload where
  id : String
  username : String
  email : String
  role : String
deriving DecidableEq, Repr

/-- A well-formed signed token: payload plus the signing secret and the
registered claims (issuer, audience, issued-at, expiry) fixed at signing. -/
structure SignedJwt where
  payload : JwtPayload
  secret : String
  issuer : String
  audience : String
  iat : Nat
  exp : Nat
deriving DecidableEq, Repr

/-- A token string handed to verification: either a well-formed signed token
or a malformed string that cannot be decoded at all. -/
inductive TokenInput where
  | signed : SignedJwt → TokenInput
  | malformed : String → TokenInput
deriving DecidableEq, Repr

/-- Outcome of the signing library verify call: success, a TokenExpiredError,
or a JsonWebTokenError (malformed / wrong signature / wrong issuer or
audience). -/
inductive JwtVerifyResult where
  | ok : JwtPayload → JwtVerifyResult
  | expiredErr : JwtVerifyResult
  | invalidErr : JwtVerifyResult
deriving DecidableEq, Repr

/-- Model of the jsonwebtoken library verify function as used by the code:
the signature is valid iff the token was signed with the same secret, the
issuer and audience options must match the signed claims, and a token whose
expiry has passed yields TokenExpiredError. -/
def jwtVerify (t : TokenInput) (secret issuer audience : String) (now : Nat) :
    JwtVerifyResult :=
  match t with
  | .malformed _ => .invalidErr
  | .signed tk =>
    if tk.secret ≠ secret then .invalidErr
    else if tk.issuer ≠ issuer then .invalidErr
    else if tk.audience ≠ audience then .invalidErr
    else if tk.exp ≤ now then .expiredErr
    else .ok tk.payload

/-- JWT_SECRET constant (the default value used when the environment does not
override it). -/
def JWT_SECRET : String := "fallback-secret-key-for-testing"

/-- JWT_EXPIRE of 7d, in seconds. -/
def JWT_EXPIRE_SECONDS : Nat := 604800

/-- The user-shaped argument of generateToken: the code reads user._id with a
fallback to user.id, then username, email, role. Absent JS properties are
modelled as none. -/
structure TokenUser where
  _id : Option String
  id : Option String
  username : String
  email : String
  role : String
deriving DecidableEq, Repr

/-- The id placed in the token payload: user._id, or user.id when _id is
falsy (JS: user._id or-else user.id; the empty string is falsy). When both
are absent JS would embed undefined; that degenerate case is modelled as the
empty string and is outside every claim considered here. -/
def payloadId (u : TokenUser) : String :=
  match u._id with
  | some s => if s = "" then (u.id.getD "") else s
  | none => u.id.getD ""

/-- generateToken: sign a payload of id, username, email, role with the
process secret, issuer mern-testing-app, audience mern-testing-users, and
expiry at a fixed 7-day offset from issuance. -/
def generateToken (u : TokenUser) (now : Nat) : TokenInput :=
  .signed
    { payload :=
        { id := payloadId u, username := u.username, email := u.email,
          role := u.role },
      secret := JWT_SECRET,
      issuer := "mern-testing-app",
      audience := "mern-testing-users",
      iat := now,
      exp := now + JWT_EXPIRE_SECONDS }

/-- View of a stored user document as the argument generateToken receives
(a mongoose document has _id set). -/
def userToTokenUser (u : UserDoc) : TokenUser :=
  { _id := some u._id, id := none, username := u.username, email := u.email,
    role := u.role }

/-- A JS error code property: mongoose duplicate-key errors carry the number
11000, multer upload errors carry string codes. -/
inductive JsCode where
  | num : Int → JsCode
  | str : String → JsCode
deriving DecidableEq, Repr

/-- One express-validator result item, as read by the error handler
(error.param, error.msg, error.value). -/
structure VErr where
  param : String
  msg : String
  value : String
deriving DecidableEq, Repr

/-- One field error as emitted by the error handler for express-validator
results: field, message, value. -/
structure FieldError where
  field : String
  message : String
  value : String
deriving DecidableEq, Repr

/-- Structured details attached to an error response: a plain string, a list
of field messages, a list of field/message/value records, or a raw list of
express-validator items (as attached to an AppError by route handlers). -/
inductive Details where
  | str : String → Details
  | list : List String → Details
  | fields : List FieldError → Details
  | vErrs : List VErr → Details
deriving DecidableEq, Repr

/-- A thrown JS error value carrying exactly the properties the error
handler and the auth middleware probe. A plain Error has name Error; absent
properties are none / empty. -/
structure JsError where
  name : String := "Error"
  message : String := ""
  code : Option JsCode := none
  keyValue : List (String × String) := []
  errorsMessages : List String := []
  errType : Option String := none
  validatorErrors : Option (List VErr) := none
  status : Option Int := none
  isOperational : Bool := false
  statusCode : Option Int := none
  details : Option Details := none
  stack : String := ""
deriving DecidableEq, Repr

/-- AppError constructor: message, status code, optional details, and the
isOperational flag always set (the class never overrides the Error name). -/
def appError (message : String) (statusCode : Int) (details : Option Details) :
    JsError :=
  { name := "Error", message := message, statusCode := some statusCode,
    details := details, isOperational := true }

/-- verifyToken: delegate to the signing library with the fixed secret,
issuer and audience; any library failure (malformed, wrong signature,
expired, wrong issuer/audience) is caught and collapsed into a plain Error
with message Invalid token. -/
def verifyToken (t : TokenInput) (now : Nat) : Except JsError JwtPayload :=
  match jwtVerify t JWT_SECRET "mern-testing-app" "mern-testing-users" now with
  | .ok p => .ok p
  | .expiredErr => .error { name := "Error", message := "Invalid token" }
  | .invalidErr => .error { name := "Error", message := "Invalid token" }

/-- getUserFromToken: verify the token, look up the user by the decoded id
excluding the password field, fail with User not found when no record
matches, fail with User account is deactivated when the record is inactive,
otherwise return the public record. The catch block only logs and rethrows. -/
def getUserFromToken (t : TokenInput) (db : List UserDoc) (now : Nat) :
    Except JsError PublicUser :=
  match verifyToken t now with
  | .error e => .error e
  | .ok decoded =>
    match findById db decoded.id with
    | none => .error { name := "Error", message := "User not found" }
    | some user =>
      if ¬ user.isActive then
        .error { name := "Error", message := "User account is deactivated" }
      else
        .ok (toPublic user)

/-- The Authorization header value: either the Bearer scheme followed by a
token (a header string starting with the 7 characters of the scheme marker,
whose remainder is the token), or a header with any other shape. -/
inductive AuthHeaderVal where
  | bearer : TokenInput → AuthHeaderVal
  | otherScheme : String → AuthHeaderVal
deriving DecidableEq, Repr

/-- The slice of an inbound request read by the middleware chain and the
error handler: method, original URL, Authorization header, route parameters,
and an optional request id. -/
structure Request where
  method : String := "GET"
  originalUrl : String := "/"
  authorization : Option AuthHeaderVal := none
  params : List (String × String) := []
  requestId : Option String := none
deriving DecidableEq, Repr

/-- extractToken: when the Authorization header is present and starts with
the Bearer scheme marker, return the remainder as the token; otherwise
return null. -/
def extractToken (req : Request) : Option TokenInput :=
  match req.authorization with
  | some (.bearer t) => some t
  | some (.otherScheme _) => none
  | none => none

/-- A JSON value appearing in a response body. -/
inductive JsValue where
  | str : String → JsValue
  | num : Int → JsValue
  | strList : List String → JsValue
  | fieldErrs : List FieldError → JsValue
  | vErrList : List VErr → JsValue
  | tok : TokenInput → JsValue
  | usr : PublicUser → JsValue
deriving DecidableEq, Repr

/-- Serialization of structured details into a response body value. -/
def detailsToValue : Details → JsValue
  | .str s => .str s
  | .list l => .strList l
  | .fields l => .fieldErrs l
  | .vErrs l => .vErrList l

/-- The outcome of one middleware gate on a request: either a halting
response (status and JSON body, the handler is never invoked), or control
passes on with the identity attached to the request context (none when no
identity is attached). -/
inductive GateOutcome where
  | halt : Int → List (String × JsValue) → GateOutcome
  | proceed : Option PublicUser → GateOutcome
deriving DecidableEq, Repr

/-- The status code and message chosen by the auth middleware catch block:
401 Invalid token by default, 401 User not found and 403 Account deactivated
for the two recognised resolution failures. -/
def authFailureMessage (e : JsError) : Int × String :=
  if e.message = "User not found" then (401, "User not found")
  else if e.message = "User account is deactivated" then
    (403, "Account deactivated")
  else (401, "Invalid token")

/-- The auth middleware (mandatory authentication): halt 401 when no token
is extracted; otherwise resolve the identity, attaching it and continuing on
success, and halting with an Authentication failed body on any resolution
failure. -/
def auth (req : Request) (db : List UserDoc) (now : Nat) : GateOutcome :=
  match extractToken req with
  | none =>
    .halt 401
      [("error", JsValue.str "Access denied"),
       ("message", JsValue.str "No token provided")]
  | some t =>
    match getUserFromToken t db now with
    | .ok user => .proceed (some user)
    | .error e =>
      let sm := authFailureMessage e
      .halt sm.1
        [("error", JsValue.str "Authentication failed"),
         ("message", JsValue.str sm.2)]

/-- The optionalAuth middleware: resolve and attach the identity when a
token is present, but continue without one on a missing token or on any
resolution failure (the failure is only logged). -/
def optionalAuth (req : Request) (db : List UserDoc) (now : Nat) :
    GateOutcome :=
  match extractToken req with
  | none => .proceed none
  | some t =>
    match getUserFromToken t db now with
    | .ok user => .proceed (some user)
    | .error _ => .proceed none

/-- requireAdmin: 401 without an attached identity, 403 for a non-admin
role, otherwise continue. -/
def requireAdmin (user : Option PublicUser) : GateOutcome :=
  match user with
  | none =>
    .halt 401
      [("error", JsValue.str "Access denied"),
       ("message", JsValue.str "Authentication required")]
  | some u =>
    if u.role ≠ "admin" then
      .halt 403
        [("error", JsValue.str "Access denied"),
         ("message", JsValue.str "Admin privileges required")]
    else .proceed user

/-- Route-parameter lookup, req.params[key]; none models undefined. -/
def lookupParam (params : List (String × String)) (key : String) :
    Option String :=
  (params.find? (fun p => p.1 = key)).map (fun p => p.2)

/-- requireOwnership(resourceIdParam, userIdField): 401 without an attached
identity; admins bypass unconditionally; when the ownership field is userId
or _id the named route parameter is compared with the identity id (string
comparison, an absent parameter never matches) and a mismatch halts 403;
in every other mode the gate falls through to the handler. -/
def requireOwnership (resourceIdParam userIdField : String) (req : Request)
    (user : Option PublicUser) : GateOutcome :=
  match user with
  | none =>
    .halt 401
      [("error", JsValue.str "Access denied"),
       ("message", JsValue.str "Authentication required")]
  | some u =>
    if u.role = "admin" then .proceed user
    else
      if userIdField = "userId" ∨ userIdField = "_id" then
        if lookupParam req.params resourceIdParam ≠ some u._id then
          .halt 403
            [("error", JsValue.str "Access denied"),
             ("message",
              JsValue.str "You can only access your own resources")]
        else .proceed user
      else .proceed user

/-- requireRole(roles): 401 without an attached identity, 403 when the
identity role is not among the allowed roles, otherwise continue. -/
def requireRole (roles : List String) (user : Option PublicUser) :
    GateOutcome :=
  match user with
  | none =>
    .halt 401
      [("error", JsValue.str "Access denied"),
       ("message", JsValue.str "Authentication required")]
  | some u =>
    if ¬ roles.contains u.role then
      .halt 403
        [("error", JsValue.str "Access denied"),
         ("message",
          JsValue.str
            ("One of the following roles is required: " ++
              String.intercalate ", " roles))]
    else .proceed user

/-- JS truthiness of a possibly-absent details value: null/undefined and the
empty string are falsy; any array (even empty) and any non-empty string are
truthy. -/
def jsTruthyDetails : Option Details → Bool
  | none => false
  | some (.str s) => s ≠ ""
  | some (.list _) => true
  | some (.fields _) => true
  | some (.vErrs _) => true

/-- JS truthiness of a possibly-absent string property. -/
def jsTruthyOptStr : Option String → Bool
  | none => false
  | some s => s ≠ ""

/-- JS or-else on a possibly-absent integer property (0 is falsy). -/
def jsOrInt (o : Option Int) (d : Int) : Int :=
  match o with
  | some n => if n = 0 then d else n
  | none => d

/-- The duplicate-key details string: the first key of err.keyValue and its
value interpolated into the already-exists template (an empty keyValue object
would interpolate undefined twice). -/
def dupDetails (kv : List (String × String)) : String :=
  match kv.head? with
  | some fv => fv.1 ++ " \x27" ++ fv.2 ++ "\x27 already exists"
  | none => "undefined \x27undefined\x27 already exists"

/-- The classification core of the errorHandler middleware: starting from the
500 / Internal Server Error / no-details default, the sequence of independent
if statements is run in source order, each matching one reassigning
statusCode, message and details. Returns the final (statusCode, message,
details). -/
def classify (err : JsError) : Int × String × Option Details :=
  let r : Int × String × Option Details := (500, "Internal Server Error", none)
  let r := if err.name = "CastError" then
      (400, "Invalid resource ID format",
        some (.str "The provided ID is not a valid MongoDB ObjectId"))
    else r
  let r := if err.code = some (.num 11000) then
      (400, "Duplicate field value", some (.str (dupDetails err.keyValue)))
    else r
  let r := if err.name = "ValidationError" then
      (400, "Validation Error", some (.list err.errorsMessages))
    else r
  let r := if err.name = "JsonWebTokenError" then
      (401, "Invalid token",
        some (.str "Please provide a valid authentication token"))
    else r
  let r := if err.name = "TokenExpiredError" then
      (401, "Token expired", some (.str "Please log in again"))
    else r
  let r := if err.errType = some "ValidationError" ∧ err.validatorErrors.isSome
    then
      (400, "Validation Error",
        some (.fields ((err.validatorErrors.getD []).map
          (fun e => { field := e.param, message := e.msg, value := e.value }))))
    else r
  let r := if err.code = some (.str "LIMIT_FILE_SIZE") then
      (400, "File too large", some (.str "Please upload a smaller file"))
    else r
  let r := if err.code = some (.str "LIMIT_UNEXPECTED_FILE") then
      (400, "Unexpected file field",
        some (.str "Please check the file upload field name"))
    else r
  let r := if err.name = "MongoNetworkError" ∨ err.name = "MongoTimeoutError"
    then
      (503, "Database connection error",
        some (.str "Service temporarily unavailable"))
    else r
  let r := if err.status = some 429 then
      (429, "Too many requests", some (.str "Please try again later"))
    else r
  let r := if err.isOperational then
      (jsOrInt err.statusCode 400, err.message,
        if jsTruthyDetails err.details then err.details else none)
    else r
  r

/-- The spec reading of the classification table with FIRST true match
winning: the rules are checked in table (source) order and the first one
whose signal matches supplies every response field; an error matching no
rule yields 500 / Internal Server Error / no details. -/
def classifyFirstMatch (err : JsError) : Int × String × Option Details :=
  if err.name = "CastError" then
    (400, "Invalid resource ID format",
      some (.str "The provided ID is not a valid MongoDB ObjectId"))
  else if err.code = some (.num 11000) then
    (400, "Duplicate field value", some (.str (dupDetails err.keyValue)))
  else if err.name = "ValidationError" then
    (400, "Validation Error", some (.list err.errorsMessages))
  else if err.name = "JsonWebTokenError" then
    (401, "Invalid token",
      some (.str "Please provide a valid authentication token"))
  else if err.name = "TokenExpiredError" then
    (401, "Token expired", some (.str "Please log in again"))
  else if err.errType = some "ValidationError" ∧ err.validatorErrors.isSome
    then
    (400, "Validation Error",
      some (.fields ((err.validatorErrors.getD []).map
        (fun e => { field := e.param, message := e.msg, value := e.value }))))
  else if err.code = some (.str "LIMIT_FILE_SIZE") then
    (400, "File too large", some (.str "Please upload a smaller file"))
  else if err.code = some (.str "LIMIT_UNEXPECTED_FILE") then
    (400, "Unexpected file field",
      some (.str "Please check the file upload field name"))
  else if err.name = "MongoNetworkError" ∨ err.name = "MongoTimeoutError"
    then
    (503, "Database connection error",
      some (.str "Service temporarily unavailable"))
  else if err.status = some 429 then
    (429, "Too many requests", some (.str "Please try again later"))
  else if err.isOperational then
    (jsOrInt err.statusCode 400, err.message,
      if jsTruthyDetails err.details then err.details else none)
  else (500, "Internal Server Error", none)

/-- The amended reading of the table with LAST true match winning: the rules
are checked in table (source) order and the last one whose signal matches
supplies every response field (equivalently: checked from the bottom of the
table upward, first hit wins); an error matching no rule yields 500 /
Internal Server Error / no details. -/
def classifyLastMatch (err : JsError) : Int × String × Option Details :=
  if err.isOperational then
    (jsOrInt err.statusCode 400, err.message,
      if jsTruthyDetails err.details then err.details else none)
  else if err.status = some 429 then
    (429, "Too many requests", some (.str "Please try again later"))
  else if err.name = "MongoNetworkError" ∨ err.name = "MongoTimeoutError"
    then
    (503, "Database connection error",
      some (.str "Service temporarily unavailable"))
  else if err.code = some (.str "LIMIT_UNEXPECTED_FILE") then
    (400, "Unexpected file field",
      some (.str "Please check the file upload field name"))
  else if err.code = some (.str "LIMIT_FILE_SIZE") then
    (400, "File too large", some (.str "Please upload a smaller file"))
  else if err.errType = some "ValidationError" ∧ err.validatorErrors.isSome
    then
    (400, "Validation Error",
      some (.fields ((err.validatorErrors.getD []).map
        (fun e => { field := e.param, message := e.msg, value := e.value }))))
  else if err.name = "TokenExpiredError" then
    (401, "Token expired", some (.str "Please log in again"))
  else if err.name = "JsonWebTokenError" then
    (401, "Invalid token",
      some (.str "Please provide a valid authentication token"))
  else if err.name = "ValidationError" then
    (400, "Validation Error", some (.list err.errorsMessages))
  else if err.code = some (.num 11000) then
    (400, "Duplicate field value", some (.str (dupDetails err.keyValue)))
  else if err.name = "CastError" then
    (400, "Invalid resource ID format",
      some (.str "The provided ID is not a valid MongoDB ObjectId"))
  else (500, "Internal Server Error", none)

/-- The response body the errorHandler middleware sends: error, status,
timestamp, path and method always, then details when truthy, requestId when
the request carries a truthy one, and stack only in development mode. The
status of the HTTP response equals the status field. -/
def errorHandlerBody (err : JsError) (req : Request) (env : String)
    (now : String) : List (String × JsValue) :=
  let c := classify err
  let extras :=
    (if jsTruthyDetails c.2.2 then
        [("details", detailsToValue (c.2.2.getD (.str "")))]
      else []) ++
    (if jsTruthyOptStr req.requestId then
        [("requestId", JsValue.str (req.requestId.getD ""))]
      else []) ++
    (if env = "development" then [("stack", JsValue.str err.stack)] else [])
  ("error", JsValue.str c.2.1) ::
  ("status", JsValue.num c.1) ::
  ("timestamp", JsValue.str now) ::
  ("path", JsValue.str req.originalUrl) ::
  ("method", JsValue.str req.method) :: extras

/-- The unmatched-route catch-all in app.js: a 404 response whose body has
exactly an error field Route not found and a message field naming the method
and original URL. -/
def notFoundCatchAll (req : Request) : Int × List (String × JsValue) :=
  (404,
    [("error", JsValue.str "Route not found"),
     ("message",
      JsValue.str ("Cannot " ++ req.method ++ " " ++ req.originalUrl))])

/-- The notFound generator exported by the errorHandler module: a pre-built
AppError for an unmatched route. -/
def notFound (req : Request) : JsError :=
  appError ("Route " ++ req.originalUrl ++ " not found") 404
    (some (.str ("Cannot " ++ req.method ++ " " ++ req.originalUrl)))

/-- A value obtained from a CommonJS require: a single function, or a module
exports object carrying named members. -/
inductive JsExport where
  | jsFunction : String → JsExport
  | jsObject : List String → JsExport
deriving DecidableEq, Repr

/-- The exports object of middleware/errorHandler.js: errorHandler,
asyncHandler, AppError and notFound, bundled in one object. -/
def errorHandlerModuleExports : JsExport :=
  .jsObject ["errorHandler", "asyncHandler", "AppError", "notFound"]

/-- The value bound by app.js line 10 (the require of the errorHandler
module, without destructuring) and later passed to app.use at line 71. -/
def appMountedErrorHandlerArg : JsExport := errorHandlerModuleExports

/-- Express app.use: accepts a function as middleware and throws a TypeError
on any other value. -/
def expressUse (arg : JsExport) : Except String Unit :=
  match arg with
  | .jsFunction _ => .ok ()
  | .jsObject _ => .error "app.use() requires a middleware function"

/-- JS String.prototype.toLowerCase, modelled characterwise. -/
def jsToLower (s : String) : String :=
  String.mk (s.data.map Char.toLower)

/-- JS String.prototype.trim: strip leading and trailing whitespace. -/
def jsTrim (s : String) : String :=
  String.mk
    (((s.data.dropWhile Char.isWhitespace).reverse.dropWhile
      Char.isWhitespace).reverse)

/-- Whether a character is in the special-character class of the password
regexes. The two JS brace characters are written with hex escapes. -/
def isSpecialChar (c : Char) : Bool :=
  c ∈ ['!', '@', '#', '$', '%', '^', '&', '*', '(', ')', ',', '.', '?', '"',
    ':', '\x7b', '\x7d', '|', '<', '>']

/-- Whether the character list contains three consecutive equal characters
(the repeated-characters regex). -/
def hasTripleRepeat : List Char → Bool
  | a :: b :: c :: rest =>
    if a = b ∧ b = c then true else hasTripleRepeat (b :: c :: rest)
  | _ => false

/-- Whether needle occurs as a contiguous run inside haystack. -/
def containsRun (needle haystack : List Char) : Bool :=
  haystack.tails.any (fun t => needle.isPrefixOf t)

/-- Whether the password contains one of the common sequences 123, abc, qwe,
case-insensitively. -/
def hasCommonSequence (password : String) : Bool :=
  let l := (jsToLower password).toList
  containsRun "123".toList l ∨ containsRun "abc".toList l ∨
    containsRun "qwe".toList l

/-- calculatePasswordStrength: the additive score over length, character
variety and pattern checks, bucketed into weak / medium / strong. -/
def calculatePasswordStrength (password : String) : String :=
  let score : Nat :=
    (if password.length ≥ 8 then 1 else 0) +
    (if password.length ≥ 12 then 1 else 0) +
    (if password.toList.any Char.isLower then 1 else 0) +
    (if password.toList.any Char.isUpper then 1 else 0) +
    (if password.toList.any Char.isDigit then 1 else 0) +
    (if password.toList.any isSpecialChar then 1 else 0) +
    (if ¬ hasTripleRepeat password.toList then 1 else 0) +
    (if ¬ hasCommonSequence password then 1 else 0)
  if score < 3 then "weak" else if score < 6 then "medium" else "strong"

/-- The result of validatePassword: validity flag, the rule-violation
messages in check order, and the strength bucket. -/
structure PwValidation where
  isValid : Bool
  errors : List String
  strength : String
deriving DecidableEq, Repr

/-- validatePassword: minimum length 6 and at least one uppercase letter,
one lowercase letter and one digit (the special-character requirement is
commented out in the source). -/
def validatePassword (password : String) : PwValidation :=
  let errors :=
    (if password.length < 6 then
        ["Password must be at least 6 characters long"]
      else []) ++
    (if ¬ password.toList.any Char.isUpper then
        ["Password must contain at least one uppercase letter"]
      else []) ++
    (if ¬ password.toList.any Char.isLower then
        ["Password must contain at least one lowercase letter"]
      else []) ++
    (if ¬ password.toList.any Char.isDigit then
        ["Password must contain at least one number"]
      else [])
  { isValid := errors.isEmpty, errors := errors,
    strength := calculatePasswordStrength password }

/-- The outcome of running a route handler body: a successful response
(status and JSON body) sent by the handler, or a thrown error that the
asyncHandler wrapper forwards to the error pipeline. -/
inductive HandlerResult where
  | success : Int → List (String × JsValue) → HandlerResult
  | thrown : JsError → HandlerResult
deriving DecidableEq, Repr

/-- The client-visible response of a handler outcome once thrown errors are
translated by the errorHandler function (asyncHandler funnels every thrown
or rejected failure into that translator). -/
def handlerResponse (r : HandlerResult) (req : Request) (env : String)
    (now : String) : Int × List (String × JsValue) :=
  match r with
  | .success s b => (s, b)
  | .thrown e => ((classify e).1, errorHandlerBody e req env now)

/-- User.findOne on an or-query over lowercased email and username, as the
login handler issues it. -/
def findByLogin (db : List UserDoc) (login : String) : Option UserDoc :=
  db.find? (fun u => u.email = jsToLower login ∨ u.username = jsToLower login)

/-- The express-validator results for the login route: login is trimmed and
must be non-empty, password must be non-empty. -/
def loginValidationErrors (login password : String) : List VErr :=
  (if jsTrim login = "" then
      [{ param := "login", msg := "Username or email is required",
         value := jsTrim login }]
    else []) ++
  (if password = "" then
      [{ param := "password", msg := "Password is required",
         value := password }]
    else [])

/-- The login handler: validation failure throws a Validation Error
AppError; an unknown login throws Invalid credentials / 401 with details
User not found; a deactivated account throws Account deactivated / 403; a
wrong password throws Invalid credentials / 401 with details Incorrect
password; otherwise a token is issued and the public profile returned.
The bcrypt comparison against the stored hash is modelled as equality with
the stored secret. -/
def loginHandler (login password : String) (db : List UserDoc) (now : Nat) :
    HandlerResult :=
  let verrs := loginValidationErrors login password
  if verrs ≠ [] then
    .thrown (appError "Validation Error" 400 (some (.vErrs verrs)))
  else
    match findByLogin db (jsTrim login) with
    | none =>
      .thrown (appError "Invalid credentials" 401 (some (.str "User not found")))
    | some user =>
      if ¬ user.isActive then
        .thrown (appError "Account deactivated" 403
          (some (.str "Your account has been deactivated")))
      else if password ≠ user.password then
        .thrown (appError "Invalid credentials" 401
          (some (.str "Incorrect password")))
      else
        .success 200
          [("message", JsValue.str "Login successful"),
           ("token", JsValue.tok (generateToken (userToTokenUser user) now)),
           ("user", JsValue.usr (toPublic user))]

/-- The forgot-password handler after its express-validator stage (the
email-shape validator is library code, so its results are passed in): on
validation failure it throws, otherwise it always sends the same success
message before even using the user lookup, which feeds logging only. -/
def forgotPasswordHandler (validationErrors : List VErr) (email : String)
    (db : List UserDoc) : HandlerResult :=
  if validationErrors ≠ [] then
    .thrown (appError "Validation Error" 400 (some (.vErrs validationErrors)))
  else
    .success 200
      [("message",
        JsValue.str
          "If an account with this email exists, a password reset link has been sent")]

/-- User.findOne on the or-query over lowercased email and username issued
by the register handler existence check. -/
def findExistingUser (db : List UserDoc) (email username : String) :
    Option UserDoc :=
  db.find? (fun u =>
    u.email = jsToLower email ∨ u.username = jsToLower username)

/-- A mongoose duplicate-key error for one colliding field, as the storage
layer raises it when a uniqueness constraint is violated. -/
def e11000 (fld value : String) : JsError :=
  { name := "MongoServerError",
    message := "E11000 duplicate key error",
    code := some (.num 11000),
    keyValue := [(fld, value)] }

/-- The register handler after its express-validator stage (those validator
results are passed in): password strength check, then the existence
pre-check naming the colliding field, then the storage create whose outcome
(success or a raised storage failure such as a duplicate-key error from a
racing insert) is passed in; on success a 201 response with token and public
profile is sent. -/
def registerHandler (validationErrors : List VErr)
    (username email password : String) (db : List UserDoc)
    (createResult : Except JsError UserDoc) (now : Nat) : HandlerResult :=
  if validationErrors ≠ [] then
    .thrown (appError "Validation Error" 400 (some (.vErrs validationErrors)))
  else
    let pv := validatePassword password
    if ¬ pv.isValid then
      .thrown (appError "Password does not meet requirements" 400
        (some (.list pv.errors)))
    else
      match findExistingUser db email username with
      | some existing =>
        let fld := if existing.email = jsToLower email then "email"
          else "username"
        .thrown (appError "User already exists" 400
          (some (.str ("A user with this " ++ fld ++ " already exists"))))
      | none =>
        match createResult with
        | .error e => .thrown e
        | .ok user =>
          .success 201
            [("message", JsValue.str "User registered successfully"),
             ("token", JsValue.tok (generateToken (userToTokenUser user) now)),
             ("user", JsValue.usr (toPublic user))]

/-! Concrete fixtures used by witnesses and counterexamples. -/

/-- A request with no Authorization header, aimed at an undefined route. -/
def c1req : Request := { method := "GET", originalUrl := "/api/nope" }

/-- An operational error whose name also matches the malformed-identifier
rule: the first rule in table order (CastError) and the last (operational)
both match, with different outputs. -/
def c3err : JsError :=
  { name := "CastError", message := "Boom", isOperational := true,
    statusCode := some 403 }

/-- A token payload referencing user u1. -/
def c4payload : JwtPayload :=
  { id := "u1", username := "alice", email := "a@x.com", role := "user" }

/-- A well-formed token for c4payload, signed with the process secret and
the fixed issuer/audience, unexpired at time 0. -/
def c4tok : TokenInput :=
  .signed
    { payload := c4payload, secret := JWT_SECRET,
      issuer := "mern-testing-app", audience := "mern-testing-users",
      iat := 0, exp := 100 }

/-- An active stored user with id u1. -/
def c4user : UserDoc :=
  { _id := "u1", username := "alice", email := "a@x.com",
    password := "Secret1", role := "user", isActive := true }

/-- A store holding exactly c4user. -/
def c4db : List UserDoc := [c4user]

/-- An identity record carrying a subject id, username, email and role. -/
def c5user : TokenUser :=
  { _id := some "u1", id := none, username := "alice", email := "a@x.com",
    role := "user" }

/-- A request whose Authorization header uses a non-Bearer scheme. -/
def c6req : Request :=
  { method := "POST", originalUrl := "/api/posts",
    authorization := some (.otherScheme "Basic abc") }

/-- A request with route parameter id bound to u1. -/
def c7req : Request :=
  { method := "GET", originalUrl := "/api/users/u1", params := [("id", "u1")] }

/-- An admin identity. -/
def c7admin : PublicUser :=
  { _id := "a1", username := "root", email := "r@x.com", role := "admin",
    isActive := true }

/-- A non-admin identity whose own id is u1. -/
def c7user : PublicUser :=
  { _id := "u1", username := "alice", email := "a@x.com", role := "user",
    isActive := true }

/-- An active stored account with email a@x.com and password Passw0rd. -/
def c8user : UserDoc :=
  { _id := "u1", username := "alice", email := "a@x.com",
    password := "Passw0rd", role := "user", isActive := true }

/-- A store holding exactly c8user. -/
def c8db : List UserDoc := [c8user]

/-- The login route request fixture. -/
def c8req : Request := { method := "POST", originalUrl := "/api/auth/login" }

/-- The register route request fixture. -/
def c9req : Request :=
  { method := "POST", originalUrl := "/api/auth/register" }

/-- The user document a successful register create returns. -/
def c9user : UserDoc :=
  { _id := "u9", username := "alice", email := "a@x.com",
    password := "Passw0rd1", role := "user", isActive := true }

/-- A well-formed token signed with the process secret and the fixed
issuer/audience whose expiry (5) has passed at verification time 10. -/
def c10tok : TokenInput :=
  .signed
    { payload := c4payload, secret := JWT_SECRET,
      issuer := "mern-testing-app", audience := "mern-testing-users",
      iat := 0, exp := 5 }

/-- A request presenting the expired token under the Bearer scheme. -/
def c10req : Request :=
  { method := "GET", originalUrl := "/api/users/u1",
    authorization := some (.bearer c10tok) }

/-! Theorems settling the claims. -/

/-- C3 (counterexample): for the error c3err the first matching rule in
table order is the malformed-identifier rule (name CastError), so the claim
predicts status 400 and message Invalid resource ID format; the code
produces 403 with message Boom, because the later operational rule
overwrites every field. -/
theorem c3_first_match_counterexample :
    c3err.name = "CastError" ∧
    classifyFirstMatch c3err =
      (400, "Invalid resource ID format",
        some (.str "The provided ID is not a valid MongoDB ObjectId")) ∧
    classify c3err = (403, "Boom", none) ∧
    classify c3err ≠ classifyFirstMatch c3err := by
  refine ⟨rfl, rfl, rfl, by decide⟩

/-- C3 (amended): the classification rules form a single ordered set checked
against the error signals, and for each response field the LAST rule whose
signal matches determines that field's value (each matching rule reassigns
status, message and details); an error matching no rule produces status 500
with message Internal Server Error and no details. -/
theorem c3_last_match_wins (err : JsError) :
    classify err = classifyLastMatch err := by
  by_cases hA : err.isOperational
  · simp [classify, classifyLastMatch, hA]
  by_cases hB : err.status = some 429
  · simp [classify, classifyLastMatch, hA, hB]
  by_cases hC : err.name = "MongoNetworkError" ∨ err.name = "MongoTimeoutError"
  · simp [classify, classifyLastMatch, hA, hB, hC]
  by_cases hD : err.code = some (.str "LIMIT_UNEXPECTED_FILE")
  · simp [classify, classifyLastMatch, hA, hB, hC, hD]
  by_cases hE : err.code = some (.str "LIMIT_FILE_SIZE")
  · simp [classify, classifyLastMatch, hA, hB, hC, hD, hE]
  by_cases hF : err.errType = some "ValidationError" ∧ err.validatorErrors.isSome
  · simp [classify, classifyLastMatch, hA, hB, hC, hD, hE, hF]
  by_cases hG : err.name = "TokenExpiredError"
  · simp [classify, classifyLastMatch, hA, hB, hC, hD, hE, hF, hG]
  by_cases hH : err.name = "JsonWebTokenError"
  · simp [classify, classifyLastMatch, hA, hB, hC, hD, hE, hF, hG, hH]
  by_cases hI : err.name = "ValidationError"
  · simp [classify, classifyLastMatch, hA, hB, hC, hD, hE, hF, hG, hH, hI]
  by_cases hJ : err.code = some (.num 11000)
  · simp [classify, classifyLastMatch, hA, hB, hC, hD, hE, hF, hG, hH, hI, hJ]
  by_cases hK : err.name = "CastError"
  · simp [classify, classifyLastMatch, hA, hB, hC, hD, hE, hF, hG, hH, hI, hJ,
      hK]
  simp [classify, classifyLastMatch, hA, hB, hC, hD, hE, hF, hG, hH, hI, hJ,
    hK]

/-- C1 (counterexample): on a concrete tokenless request, the auth gate
halts with a body holding only error and message — the timestamp, path,
method and status fields of the Normalized Error Envelope are absent — and
the unmatched-route 404 body likewise lacks all four. -/
theorem c1_reduced_shape_counterexample :
    auth c1req [] 0 = GateOutcome.halt 401
      [("error", JsValue.str "Access denied"),
       ("message", JsValue.str "No token provided")] ∧
    ([("error", JsValue.str "Access denied"),
      ("message", JsValue.str "No token provided")]
        : List (String × JsValue)).lookup "timestamp" = none ∧
    (notFoundCatchAll c1req).2.lookup "timestamp" = none ∧
    (notFoundCatchAll c1req).2.lookup "path" = none ∧
    (notFoundCatchAll c1req).2.lookup "method" = none ∧
    (notFoundCatchAll c1req).2.lookup "status" = none := by
  refine ⟨rfl, rfl, rfl, rfl, rfl, rfl⟩

/-- C1 (amended): every failure path sends exactly one response, but only
the central errorHandler populates every non-optional envelope field
(error, status, timestamp, path, method); the auth gate's own 401/403
halting responses and the unmatched-route 404 response carry exactly an
error and a message field. -/
theorem c1_envelope_amended :
    (∀ (err : JsError) (req : Request) (env now : String),
      ((errorHandlerBody err req env now).lookup "error").isSome = true ∧
      ((errorHandlerBody err req env now).lookup "status").isSome = true ∧
      ((errorHandlerBody err req env now).lookup "timestamp").isSome = true ∧
      ((errorHandlerBody err req env now).lookup "path").isSome = true ∧
      ((errorHandlerBody err req env now).lookup "method").isSome = true) ∧
    (∀ (req : Request) (db : List UserDoc) (now : Nat) (sc : Int)
        (body : List (String × JsValue)),
      auth req db now = GateOutcome.halt sc body →
      body.map Prod.fst = ["error", "message"]) ∧
    (∀ req : Request,
      (notFoundCatchAll req).2.map Prod.fst = ["error", "message"]) := by
  refine ⟨fun err req env now => ⟨rfl, rfl, rfl, rfl, rfl⟩, ?_, fun req => rfl⟩
  intro req db now sc body h
  unfold auth at h
  cases hx : extractToken req with
  | none =>
    rw [hx] at h
    cases h
    rfl
  | some t =>
    rw [hx] at h
    dsimp only at h
    cases hg : getUserFromToken t db now with
    | ok user => rw [hg] at h; cases h
    | error e =>
      rw [hg] at h
      cases h
      rfl

/-- C1 (witness for the amended theorem): the envelope-field part at a
concrete error and request, and the gate-halt part at the concrete
tokenless request. -/
theorem c1_envelope_amended_witness :
    ((errorHandlerBody { message := "x" } c1req "production" "T").lookup
      "timestamp").isSome = true ∧
    ([("error", JsValue.str "Access denied"),
      ("message", JsValue.str "No token provided")]
        : List (String × JsValue)).map Prod.fst = ["error", "message"] := by
  exact ⟨(c1_envelope_amended.1 { message := "x" } c1req "production" "T").2.2.1,
    c1_envelope_amended.2.1 c1req [] 0 401 _ rfl⟩

/-- C2 (code bug): app.js line 10 binds the whole errorHandler module
exports object and line 71 passes that object — not the errorHandler
function — to app.use, which Express rejects because middleware must be a
function; the central translator is therefore never mounted. -/
theorem c2_errorHandler_mount_bug :
    appMountedErrorHandlerArg =
      JsExport.jsObject ["errorHandler", "asyncHandler", "AppError",
        "notFound"] ∧
    expressUse appMountedErrorHandlerArg =
      Except.error "app.use() requires a middleware function" :=
  ⟨rfl, rfl⟩

/-- C4: for every token that verifies successfully, identity resolution
returns the matching stored user's record with the password excluded when
the record exists and is active, fails with User not found when no record
matches the subject id, and fails with User account is deactivated when the
matching record is inactive. -/
theorem c4_identity_resolution (t : TokenInput) (db : List UserDoc)
    (now : Nat) (p : JwtPayload) (h : verifyToken t now = Except.ok p) :
    getUserFromToken t db now =
      match findById db p.id with
      | none => Except.error { name := "Error", message := "User not found" }
      | some u =>
        if u.isActive then Except.ok (toPublic u)
        else Except.error
          { name := "Error", message := "User account is deactivated" } := by
  unfold getUserFromToken
  rw [h]
  dsimp only
  cases hf : findById db p.id with
  | none => rfl
  | some u => cases hu : u.isActive <;> simp [hu]

/-- C4 (witness): the concrete token c4tok verifies at time 0 and resolves
to the public record of the active user c4user. -/
theorem c4_identity_resolution_witness :
    verifyToken c4tok 0 = Except.ok c4payload ∧
    getUserFromToken c4tok c4db 0 = Except.ok (toPublic c4user) := by
  have h := c4_identity_resolution c4tok c4db 0 c4payload rfl
  exact ⟨rfl, by rw [h]; rfl⟩

/-- C5: a token issued by generateToken from an identity record carrying a
subject id, username, email and role verifies successfully at any time
before the fixed expiry (with the process secret unchanged), and the
decoded claims equal the fields the token was constructed from. -/
theorem c5_issue_verify_roundtrip (u : TokenUser) (i : String)
    (now later : Nat) (h1 : u._id = some i) (h2 : i ≠ "")
    (h3 : later < now + JWT_EXPIRE_SECONDS) :
    verifyToken (generateToken u now) later =
      Except.ok
        { id := i, username := u.username, email := u.email,
          role := u.role } := by
  have hexp : ¬ (now + JWT_EXPIRE_SECONDS ≤ later) := by omega
  simp [verifyToken, generateToken, jwtVerify, payloadId, h1, h2, hexp]

/-- C5 (witness): the round trip at the concrete identity c5user, issued at
time 0 and verified at time 1. -/
theorem c5_issue_verify_roundtrip_witness :
    verifyToken (generateToken c5user 0) 1 =
      Except.ok
        { id := "u1", username := "alice", email := "a@x.com",
          role := "user" } :=
  c5_issue_verify_roundtrip c5user "u1" 0 1 rfl (by decide) (by decide)

/-- C6: on every request whose credential header is absent or does not use
the Bearer scheme, the require-auth gate halts 401 with error Access denied
and message No token provided (the handler is never invoked), while the
optional-auth gate proceeds with no identity attached. -/
theorem c6_missing_token_gates (req : Request) (db : List UserDoc)
    (now : Nat)
    (h : req.authorization = none ∨
      ∃ s, req.authorization = some (AuthHeaderVal.otherScheme s)) :
    auth req db now = GateOutcome.halt 401
      [("error", JsValue.str "Access denied"),
       ("message", JsValue.str "No token provided")] ∧
    optionalAuth req db now = GateOutcome.proceed none := by
  have hx : extractToken req = none := by
    rcases h with h | ⟨s, h⟩ <;> simp [extractToken, h]
  exact ⟨by simp [auth, hx], by simp [optionalAuth, hx]⟩

/-- C6 (witness): the concrete non-Bearer request c6req is halted by the
require-auth gate and passed through identityless by the optional gate. -/
theorem c6_missing_token_gates_witness :
    auth c6req [] 0 = GateOutcome.halt 401
      [("error", JsValue.str "Access denied"),
       ("message", JsValue.str "No token provided")] ∧
    optionalAuth c6req [] 0 = GateOutcome.proceed none :=
  c6_missing_token_gates c6req [] 0 (Or.inr ⟨"Basic abc", rfl⟩)

/-- C7: requireOwnership halts 401 without an attached identity; an admin
identity passes unconditionally; in self mode (ownership field userId or
_id) a non-admin passes exactly when the named route parameter equals the
identity's own id and is halted 403 on mismatch; in every other ownership
mode the gate passes any authenticated caller through. -/
theorem c7_require_ownership (p f : String) (req : Request)
    (u : PublicUser) :
    requireOwnership p f req none = GateOutcome.halt 401
      [("error", JsValue.str "Access denied"),
       ("message", JsValue.str "Authentication required")] ∧
    (u.role = "admin" →
      requireOwnership p f req (some u) = GateOutcome.proceed (some u)) ∧
    ((f = "userId" ∨ f = "_id") → u.role ≠ "admin" →
      (lookupParam req.params p = some u._id →
        requireOwnership p f req (some u) = GateOutcome.proceed (some u)) ∧
      (lookupParam req.params p ≠ some u._id →
        requireOwnership p f req (some u) = GateOutcome.halt 403
          [("error", JsValue.str "Access denied"),
           ("message",
            JsValue.str "You can only access your own resources")])) ∧
    (¬ (f = "userId" ∨ f = "_id") →
      requireOwnership p f req (some u) = GateOutcome.proceed (some u)) := by
  refine ⟨rfl, ?_, ?_, ?_⟩
  · intro hadm
    simp [requireOwnership, hadm]
  · intro hf hrole
    constructor
    · intro heq
      simp [requireOwnership, hrole, hf, heq]
    · intro hne
      simp [requireOwnership, hrole, hf, hne]
  · intro hf
    by_cases hadm : u.role = "admin" <;>
      simp [requireOwnership, hadm, hf]

/-- C7 (witness): at concrete inputs — an admin passes in self mode, a
non-admin whose id equals the route parameter passes in self mode, and a
non-admin passes in the default author mode. -/
theorem c7_require_ownership_witness :
    requireOwnership "id" "userId" c7req (some c7admin) =
      GateOutcome.proceed (some c7admin) ∧
    requireOwnership "id" "userId" c7req (some c7user) =
      GateOutcome.proceed (some c7user) ∧
    requireOwnership "id" "author" c7req (some c7user) =
      GateOutcome.proceed (some c7user) := by
  refine ⟨(c7_require_ownership "id" "userId" c7req c7admin).2.1 rfl,
    ((c7_require_ownership "id" "userId" c7req c7user).2.2.1 (Or.inl rfl)
      (by decide)).1 (by decide),
    (c7_require_ownership "id" "author" c7req c7user).2.2.2 (by decide)⟩

/-- C8 (counterexample): against the concrete store c8db, the unknown-login
attempt and the known-login-wrong-password attempt both reach the translator
as Invalid credentials / 401, but the details field of the client-visible
responses differs (User not found versus Incorrect password), so the two
responses are not identical. -/
theorem c8_login_responses_differ :
    findByLogin c8db "bob@x.com" = none ∧
    findByLogin c8db "a@x.com" = some c8user ∧
    c8user.isActive = true ∧
    (handlerResponse (loginHandler "bob@x.com" "Wrongpass1" c8db 0) c8req
      "production" "T").2.lookup "details" =
        some (JsValue.str "User not found") ∧
    (handlerResponse (loginHandler "a@x.com" "Wrongpass1" c8db 0) c8req
      "production" "T").2.lookup "details" =
        some (JsValue.str "Incorrect password") ∧
    handlerResponse (loginHandler "bob@x.com" "Wrongpass1" c8db 0) c8req
        "production" "T" ≠
      handlerResponse (loginHandler "a@x.com" "Wrongpass1" c8db 0) c8req
        "production" "T" := by
  refine ⟨rfl, rfl, rfl, rfl, rfl, by decide⟩

/-- C8 (amended): the two failing login attempts share the undifferentiated
top-level message Invalid credentials and status 401, but their details
fields differ (User not found versus Incorrect password), so the full
client-visible responses depend on whether the account exists; the two
forgot-password requests are answered with identical success messages
independent of the store. -/
theorem c8_login_enumeration_amended (l pw : String) (db : List UserDoc)
    (now : Nat) (hv : loginValidationErrors l pw = []) :
    (findByLogin db (jsTrim l) = none →
      loginHandler l pw db now = HandlerResult.thrown
        (appError "Invalid credentials" 401
          (some (Details.str "User not found")))) ∧
    (∀ u, findByLogin db (jsTrim l) = some u → u.isActive = true →
      pw ≠ u.password →
      loginHandler l pw db now = HandlerResult.thrown
        (appError "Invalid credentials" 401
          (some (Details.str "Incorrect password")))) ∧
    (∀ (e : String) (db₁ db₂ : List UserDoc),
      forgotPasswordHandler [] e db₁ = forgotPasswordHandler [] e db₂) ∧
    (∀ (e : String) (db₀ : List UserDoc),
      forgotPasswordHandler [] e db₀ = HandlerResult.success 200
        [("message",
          JsValue.str
            "If an account with this email exists, a password reset link has been sent")]) := by
  refine ⟨?_, ?_, fun e db₁ db₂ => rfl, fun e db₀ => rfl⟩
  · intro hn
    simp [loginHandler, hv, hn]
  · intro u hu hact hpw
    simp [loginHandler, hv, hu, hact, hpw]

/-- C8 (witness for the amended theorem): the two concrete failing attempts
against c8db produce the stated thrown errors, and forgot-password at a
concrete email is store-independent. -/
theorem c8_login_enumeration_amended_witness :
    loginHandler "bob@x.com" "Wrongpass1" c8db 0 = HandlerResult.thrown
      (appError "Invalid credentials" 401
        (some (Details.str "User not found"))) ∧
    loginHandler "a@x.com" "Wrongpass1" c8db 0 = HandlerResult.thrown
      (appError "Invalid credentials" 401
        (some (Details.str "Incorrect password"))) ∧
    forgotPasswordHandler [] "a@x.com" c8db =
      forgotPasswordHandler [] "a@x.com" [] := by
  refine
    ⟨(c8_login_enumeration_amended "bob@x.com" "Wrongpass1" c8db 0 rfl).1 rfl,
     (c8_login_enumeration_amended "a@x.com" "Wrongpass1" c8db 0 rfl).2.1
       c8user rfl rfl (by decide),
     (c8_login_enumeration_amended "a@x.com" "Wrongpass1" c8db 0
       rfl).2.2.1 "a@x.com" c8db []⟩

/-- C9 (counterexample): when the duplicate-email collision surfaces as the
storage layer's uniqueness-violation signal (the pre-insertion check having
passed), the translated response carries message Duplicate field value —
not User already exists as the claim states — though its details do name
the colliding field. -/
theorem c9_duplicate_message_counterexample :
    registerHandler [] "alice" "a@x.com" "Passw0rd1" []
        (Except.error (e11000 "email" "a@x.com")) 0 =
      HandlerResult.thrown (e11000 "email" "a@x.com") ∧
    (handlerResponse
      (registerHandler [] "alice" "a@x.com" "Passw0rd1" []
        (Except.error (e11000 "email" "a@x.com")) 0)
      c9req "production" "T").1 = 400 ∧
    (handlerResponse
      (registerHandler [] "alice" "a@x.com" "Passw0rd1" []
        (Except.error (e11000 "email" "a@x.com")) 0)
      c9req "production" "T").2.lookup "error" =
        some (JsValue.str "Duplicate field value") ∧
    (handlerResponse
      (registerHandler [] "alice" "a@x.com" "Passw0rd1" []
        (Except.error (e11000 "email" "a@x.com")) 0)
      c9req "production" "T").2.lookup "details" =
        some (JsValue.str "email \x27a@x.com\x27 already exists") ∧
    JsValue.str "Duplicate field value" ≠ JsValue.str "User already exists"
    := by
  refine ⟨rfl, rfl, rfl, rfl, by decide⟩

/-- C9 (amended): with valid inputs, the registration whose storage insert
succeeds responds 201 with a token and the user's public profile; a loser
caught by the pre-insertion existence check receives 400 with message User
already exists and details naming the colliding field; a loser whose
collision surfaces as the storage uniqueness-violation signal receives 400
with message Duplicate field value and details naming the colliding field
and value. -/
theorem c9_duplicate_registration_amended (username email password : String)
    (db : List UserDoc) (u : UserDoc) (cr : Except JsError UserDoc)
    (now : Nat) (f v : String)
    (hpw : (validatePassword password).isValid = true) :
    (findExistingUser db email username = none →
      registerHandler [] username email password db (Except.ok u) now =
        HandlerResult.success 201
          [("message", JsValue.str "User registered successfully"),
           ("token", JsValue.tok (generateToken (userToTokenUser u) now)),
           ("user", JsValue.usr (toPublic u))]) ∧
    (∀ ex, findExistingUser db email username = some ex →
      ex.email = jsToLower email →
      registerHandler [] username email password db cr now =
        HandlerResult.thrown (appError "User already exists" 400
          (some (Details.str "A user with this email already exists")))) ∧
    (findExistingUser db email username = none →
      ∀ (req : Request) (ts : String),
        handlerResponse
            (registerHandler [] username email password db
              (Except.error (e11000 f v)) now) req "production" ts =
          (400, errorHandlerBody (e11000 f v) req "production" ts) ∧
        (errorHandlerBody (e11000 f v) req "production" ts).lookup "error" =
          some (JsValue.str "Duplicate field value")) := by
  refine ⟨?_, ?_, ?_⟩
  · intro hn
    simp [registerHandler, hpw, hn]
  · intro ex hex hem
    simp [registerHandler, hpw, hex, hem]
  · intro hn req ts
    constructor
    · simp [registerHandler, hpw, hn, handlerResponse]
      rfl
    · rfl

/-- C9 (witness for the amended theorem): the three outcomes at concrete
inputs — a successful create, a pre-check hit against a store holding the
email, and a storage duplicate-key loss. -/
theorem c9_duplicate_registration_amended_witness :
    registerHandler [] "alice" "a@x.com" "Passw0rd1" [] (Except.ok c9user) 0 =
      HandlerResult.success 201
        [("message", JsValue.str "User registered successfully"),
         ("token",
          JsValue.tok (generateToken (userToTokenUser c9user) 0)),
         ("user", JsValue.usr (toPublic c9user))] ∧
    registerHandler [] "alice" "a@x.com" "Passw0rd1" c8db
        (Except.ok c9user) 0 =
      HandlerResult.thrown (appError "User already exists" 400
        (some (Details.str "A user with this email already exists"))) ∧
    (errorHandlerBody (e11000 "email" "a@x.com") c9req "production"
      "T").lookup "error" = some (JsValue.str "Duplicate field value") := by
  refine
    ⟨(c9_duplicate_registration_amended "alice" "a@x.com" "Passw0rd1" []
        c9user (Except.ok c9user) 0 "email" "a@x.com" rfl).1 rfl,
     (c9_duplicate_registration_amended "alice" "a@x.com" "Passw0rd1" c8db
        c9user (Except.ok c9user) 0 "email" "a@x.com" rfl).2.1 c8user rfl
        rfl,
     ((c9_duplicate_registration_amended "alice" "a@x.com" "Passw0rd1" []
        c9user (Except.ok c9user) 0 "email" "a@x.com" rfl).2.2 rfl c9req
        "T").2⟩

/-- C10: every verification failure — malformed token, wrong signature,
expired token, wrong issuer or audience — is collapsed by verifyToken into
a plain Error named Error with message Invalid token, never the signing
library's TokenExpiredError or JsonWebTokenError (so the errorHandler's
Token expired and Invalid token branches cannot match an error it throws,
which would fall through to the 500 default); and a request presenting an
expired token is answered by the auth gate itself with 401, error
Authentication failed, message Invalid token. -/
theorem c10_token_failure_collapse :
    (∀ (t : TokenInput) (now : Nat) (e : JsError),
      verifyToken t now = Except.error e →
      e = { name := "Error", message := "Invalid token" } ∧
      e.name ≠ "JsonWebTokenError" ∧ e.name ≠ "TokenExpiredError" ∧
      classify e = (500, "Internal Server Error", none)) ∧
    (∀ (req : Request) (db : List UserDoc) (now : Nat) (t : TokenInput),
      extractToken req = some t →
      jwtVerify t JWT_SECRET "mern-testing-app" "mern-testing-users" now =
        JwtVerifyResult.expiredErr →
      auth req db now = GateOutcome.halt 401
        [("error", JsValue.str "Authentication failed"),
         ("message", JsValue.str "Invalid token")]) := by
  constructor
  · intro t now e h
    unfold verifyToken at h
    cases hj : jwtVerify t JWT_SECRET "mern-testing-app"
        "mern-testing-users" now <;> rw [hj] at h
    · cases h
    · cases h
      exact ⟨rfl, by decide, by decide, rfl⟩
    · cases h
      exact ⟨rfl, by decide, by decide, rfl⟩
  · intro req db now t hx hj
    simp [auth, hx, getUserFromToken, verifyToken, hj, authFailureMessage]

/-- C10 (witness): the concrete expired token c10tok at time 10 — the
collapsed plain error, and the gate's own 401 response on the request
presenting it. -/
theorem c10_token_failure_collapse_witness :
    verifyToken c10tok 10 =
      Except.error { name := "Error", message := "Invalid token" } ∧
    classify { name := "Error", message := "Invalid token" } =
      (500, "Internal Server Error", none) ∧
    auth c10req [] 10 = GateOutcome.halt 401
      [("error", JsValue.str "Authentication failed"),
       ("message", JsValue.str "Invalid token")] := by
  refine ⟨rfl,
    (c10_token_failure_collapse.1 c10tok 10
      { name := "Error", message := "Invalid token" } rfl).2.2.2,
    c10_token_failure_collapse.2 c10req [] 10 c10tok rfl rfl⟩

end MernAuth
